import Mathlib

/-!
Shallow embedding of the Docker registry proxy worker (`src/index.ts`) and
verification of its routing, path-rewriting and scope-normalization logic.

The worker is a stateless HTTP request router.  Its only data are the
transient request values (method, host, pathname, query parameters, headers)
and the outbound requests it constructs.  Network effects are modelled by
passing an explicit `fetch` oracle of type `OutboundRequest → HttpResponse`
into the handlers; everything the worker computes around that oracle is a
pure function and is embedded directly.
-/

/-! ## JavaScript string primitives

`String.prototype.split(sep)` and `Array.prototype.join(sep)` for a
single-character separator, modelled on the character list underlying the
Lean `String`.  `splitCh` mirrors JS `split`: splitting the empty string
yields `[[]]`, a leading/trailing separator yields an empty first/last part.
-/

/-- Character-list version of JS `String.prototype.split` with a
one-character separator. -/
def splitCh (sep : Char) : List Char → List (List Char)
  | [] => [[]]
  | c :: cs =>
    if c = sep then
      [] :: splitCh sep cs
    else
      match splitCh sep cs with
      | [] => [[c]]
      | p :: ps => (c :: p) :: ps

/-- Character-list version of JS `Array.prototype.join` with a
one-character separator. -/
def joinCh (sep : Char) : List (List Char) → List Char
  | [] => []
  | [p] => p
  | p :: q :: ps => p ++ sep :: joinCh sep (q :: ps)

/-- JS `s.split(sep)` for a string `s` and one-character separator. -/
def jsSplit (s : String) (sep : Char) : List String :=
  (splitCh sep s.data).map String.mk

/-- JS `parts.join(sep)` for a one-character separator. -/
def jsJoin (sep : Char) (parts : List String) : String :=
  String.mk (joinCh sep (parts.map String.data))

/-- JS `s.includes(c)` for a one-character needle. -/
def jsIncludes (s : String) (c : Char) : Bool :=
  s.data.contains c

/-- JS `parts.splice(i, 0, x)`: insert `x` at index `i`. -/
def spliceInsert (i : Nat) (x : α) (l : List α) : List α :=
  l.take i ++ x :: l.drop i

/-! ## HTTP data model -/

/-- The parts of a WHATWG `URL` object the worker reads: `url.host`,
`url.pathname` and `url.searchParams` (an ordered multimap; `get` returns
the first value). -/
structure Url where
  host : String
  pathname : String
  query : List (String × String)
deriving DecidableEq, Repr

/-- An inbound request as the worker sees it: its parsed URL, its HTTP
method and its headers.  The body is never read by the worker. -/
structure InboundRequest where
  url : Url
  method : String
  headers : List (String × String)
deriving DecidableEq, Repr

/-- The `redirect` policy of an outbound `Request`. -/
inductive RedirectPolicy where
  | follow
  | manual
deriving DecidableEq, Repr

/-- An outbound request handed to `fetch`: target base URL, query
parameters appended to it, method, headers and redirect policy.  A bare
`fetch(url)` uses method `GET`, no headers and the default `follow`
policy. -/
structure OutboundRequest where
  url : String
  query : List (String × String)
  method : String
  headers : List (String × String)
  redirect : RedirectPolicy
deriving DecidableEq, Repr

/-- An HTTP response: status, status text, headers and body. -/
structure HttpResponse where
  status : Nat
  statusText : String
  headers : List (String × String)
  body : String
deriving DecidableEq, Repr

/-- Result of handling a request: either a response, or an uncaught runtime
error (the worker's `passThroughOnException` path). -/
inductive HandleResult where
  | response (r : HttpResponse)
  | error
deriving DecidableEq, Repr

/-- `Response.redirect(location, status)`: a response with the given status
and a `Location` header, empty body. -/
def redirectResponse (location : String) (status : Nat) : HttpResponse :=
  { status := status, statusText := "", headers := [("Location", location)], body := "" }

/-- Model of `new URL("https://" + host)` followed by assigning
`url.pathname = p`: the WHATWG setter makes the path absolute, prefixing a
`/` when `p` does not already start with one. -/
def setPathname (p : String) : String :=
  if p.data.head? = some '/' then p else "/" ++ p

/-- `newUrl.toString()` for the URL built from `https://<host>` with its
pathname assigned: scheme `https`, the given host, the normalized path. -/
def urlWithPath (host pathname : String) : String :=
  "https://" ++ host ++ setPathname pathname

/-! ## The worker's functions (from `src/index.ts`) -/

/-- `const DOCKER_REGISTRY = 'https://registry-1.docker.io'` -/
def DOCKER_REGISTRY : String := "https://registry-1.docker.io"

/-- `processScope(url)` (the part operating on the scope string): split the
scope on `:`; if there are exactly 3 parts and the second contains no `/`,
replace `parts[1]` by `'library/' + parts[1]` and rejoin; otherwise return
the scope unchanged. -/
def normalizeScope (scope : String) : String :=
  let parts := jsSplit scope ':'
  if parts.length = 3 && !(jsIncludes (parts.getD 1 "") '/') then
    jsJoin ':' (parts.set 1 ("library/" ++ parts.getD 1 ""))
  else
    scope

/-- `processScope(url)`: read `url.searchParams.get('scope')` and normalize
it.  `none` models the `TypeError` raised by `scope.split(':')` when the
parameter is absent (`get` returned `null`). -/
def processScope (url : Url) : Option String :=
  match url.query.lookup "scope" with
  | none => none
  | some scope => some (normalizeScope scope)

/-- The outbound request `getToken` builds: `https://auth.docker.io/token`
with `service` and `scope` set on an initially empty query, via a bare
`fetch` (GET, no headers, default redirect policy). -/
def tokenRequest (scope : String) : OutboundRequest :=
  { url := "https://auth.docker.io/token"
    query := [("service", "registry.docker.io"), ("scope", scope)]
    method := "GET"
    headers := []
    redirect := .follow }

/-- `getToken(originUrl)`: normalize the scope and fetch the token from the
fixed auth service, returning its response unmodified.  A missing scope
parameter surfaces as the uncaught error. -/
def getToken (fetch : OutboundRequest → HttpResponse) (originUrl : Url) : HandleResult :=
  match processScope originUrl with
  | none => .error
  | some scope => .response (fetch (tokenRequest scope))

/-- The outbound request `challenge` makes: a bare `fetch` of
`<upstream>/v2/`. -/
def challengeRequest (upstream : String) : OutboundRequest :=
  { url := upstream ++ "/v2/", query := [], method := "GET", headers := [], redirect := .follow }

/-- The `WWW-Authenticate` value `challenge` sets for a given requesting
host. -/
def authenticateValue (host : String) : String :=
  "Bearer realm=\"https://" ++ host ++ "/auth/token\",service=\"docker-proxy-worker\""

/-- `challenge(upstream, host)`: fetch `<upstream>/v2/`, and return a
response with the upstream's status, status text and body, and exactly one
header, the `WWW-Authenticate` challenge built from the requesting host. -/
def challenge (fetch : OutboundRequest → HttpResponse) (upstream host : String) : HttpResponse :=
  let upstreamResponse := fetch (challengeRequest upstream)
  { status := upstreamResponse.status
    statusText := upstreamResponse.statusText
    headers := [("WWW-Authenticate", authenticateValue host)]
    body := upstreamResponse.body }

/-- The proxy request `getData` builds: `<upstream><pathname>` (the inbound
query string is dropped), the inbound method and headers, redirect policy
`manual`. -/
def proxyRequest (upstream : String) (req : InboundRequest) : OutboundRequest :=
  { url := upstream ++ req.url.pathname
    query := []
    method := req.method
    headers := req.headers
    redirect := .manual }

/-- `getData(upstream, req)`: forward the proxy request and return the
upstream response unmodified. -/
def getData (fetch : OutboundRequest → HttpResponse) (upstream : String)
    (req : InboundRequest) : HttpResponse :=
  fetch (proxyRequest upstream req)

/-- `handleRequest(request)`: the top-level dispatch of the worker. -/
def handleRequest (fetch : OutboundRequest → HttpResponse) (request : InboundRequest) :
    HandleResult :=
  if request.url.pathname = "/" then
    .response (redirectResponse "https://www.docker.com" 301)
  else if request.url.pathname = "/v2/" then
    .response (challenge fetch DOCKER_REGISTRY request.url.host)
  else if request.url.pathname = "/auth/token" then
    getToken fetch request.url
  else if (jsSplit request.url.pathname '/').length = 5 then
    .response (redirectResponse
      (urlWithPath request.url.host
        (jsJoin '/' (spliceInsert 2 "library" (jsSplit request.url.pathname '/')))) 301)
  else
    .response (getData fetch DOCKER_REGISTRY request)

/-! ## Observations of the router -/

/-- The five handling modes of the router. -/
inductive Mode where
  | landingRedirect
  | challengeMode
  | tokenMode
  | namespaceRedirect
  | genericProxy
deriving DecidableEq, Repr

/-- Which of the five modes `handleRequest` selects, reading nothing of the
request but its URL pathname, with the same tests in the same order. -/
def handlingMode (request : InboundRequest) : Mode :=
  if request.url.pathname = "/" then .landingRedirect
  else if request.url.pathname = "/v2/" then .challengeMode
  else if request.url.pathname = "/auth/token" then .tokenMode
  else if (jsSplit request.url.pathname '/').length = 5 then .namespaceRedirect
  else .genericProxy

/-- The scope-normalization rule as the spec words it (§4.5): split on `:`;
if the result has exactly 3 parts and the second part does not already
contain a `/`, rewrite the second part to `library/<original>` and rejoin
with `:`; otherwise return the scope unchanged. -/
def specScopeNormalizer (scope : String) : String :=
  match jsSplit scope ':' with
  | [kind, name, action] =>
    if jsIncludes name '/' then scope
    else jsJoin ':' [kind, "library/" ++ name, action]
  | _ => scope

/-! ## Concrete fixtures used to exercise the model -/

/-- A fetch oracle that answers every outbound request the same way. -/
def constFetch : OutboundRequest → HttpResponse := fun _ => ⟨200, "OK", [], "ok"⟩

/-- `GET /v2/alpine/manifests/latest` — a five-segment repository path with
no namespace. -/
def manifestRequest : InboundRequest :=
  ⟨⟨"example.com", "/v2/alpine/manifests/latest", []⟩, "GET", []⟩

/-- A fetch oracle acting as the upstream registry's discovery endpoint:
`401` with its own headers and body on `/v2/`. -/
def upstreamProbeFetch : OutboundRequest → HttpResponse := fun r =>
  if r.url = "https://registry-1.docker.io/v2/" then
    ⟨401, "Unauthorized", [("Docker-Distribution-Api-Version", "registry/2.0")], "authrequired"⟩
  else ⟨500, "err", [], ""⟩

/-- `GET /v2/` reaching the proxy at host `proxy.example`. -/
def v2Request : InboundRequest := ⟨⟨"proxy.example", "/v2/", []⟩, "GET", []⟩

/-- A fetch oracle acting as the token service: it answers only the exact
normalized token request. -/
def tokenFetch : OutboundRequest → HttpResponse := fun r =>
  if r = tokenRequest "repository:library/alpine:pull" then
    ⟨200, "OK", [("Content-Type", "application/json")], "tokenpayload"⟩
  else ⟨500, "err", [], ""⟩

/-- `GET /auth/token?scope=repository:alpine:pull&foo=bar`. -/
def tokenRequestSample : InboundRequest :=
  ⟨⟨"proxy.example", "/auth/token", [("scope", "repository:alpine:pull"), ("foo", "bar")]⟩,
    "GET", []⟩

/-- A token request differing from `tokenRequestSample` in host, method,
headers and extra query parameters, but with the same scope. -/
def otherTokenRequestSample : InboundRequest :=
  ⟨⟨"other.example", "/auth/token", [("scope", "repository:alpine:pull")]⟩, "POST",
    [("X-Extra", "yes")]⟩

/-- `GET /auth/token` with no `scope` query parameter. -/
def noScopeTokenRequest : InboundRequest :=
  ⟨⟨"proxy.example", "/auth/token", [("account", "alice")]⟩, "GET", []⟩

/-- A fetch oracle acting as the upstream registry for a blob request: a
`307` that must be passed back unfollowed (answered only under the manual
redirect policy). -/
def blobFetch : OutboundRequest → HttpResponse := fun r =>
  if r.redirect = RedirectPolicy.manual then
    ⟨307, "Temporary Redirect", [("Location", "https://blobs.example/data")], ""⟩
  else ⟨500, "err", [], ""⟩

/-- `HEAD /v2/library/alpine/blobs/sha256-abc?q=1` with an authorization
header — six path segments, so it goes to the generic proxy. -/
def blobRequest : InboundRequest :=
  ⟨⟨"proxy.example", "/v2/library/alpine/blobs/sha256-abc", [("q", "1")]⟩, "HEAD",
    [("Authorization", "Bearer token123")]⟩

/-- One of two requests sharing a pathname but nothing else. -/
def modeProbeA : InboundRequest :=
  ⟨⟨"proxy.example", "/v2/alpine/manifests/latest", [("a", "1")]⟩, "GET", []⟩

/-- The other request sharing `modeProbeA`'s pathname but nothing else. -/
def modeProbeB : InboundRequest :=
  ⟨⟨"other.example", "/v2/alpine/manifests/latest", []⟩, "POST", [("X", "y")]⟩

/-! ## Lemmas about `splitCh` and `joinCh` -/

theorem splitCh_ne_nil (sep : Char) (l : List Char) : splitCh sep l ≠ [] := by
  cases l with
  | nil => simp [splitCh]
  | cons c cs =>
    simp only [splitCh]
    split
    · simp
    · split <;> simp

theorem sep_not_mem_of_mem_splitCh (sep : Char) (l : List Char) :
    ∀ p ∈ splitCh sep l, sep ∉ p := by
  induction l with
  | nil =>
    intro p hp
    simp [splitCh] at hp
    simp [hp]
  | cons c cs ih =>
    intro p hp
    simp only [splitCh] at hp
    by_cases hc : c = sep
    · rw [if_pos hc] at hp
      rcases List.mem_cons.mp hp with h | h
      · simp [h]
      · exact ih p h
    · rw [if_neg hc] at hp
      rcases hs : splitCh sep cs with _ | ⟨q, qs⟩
      · exact absurd hs (splitCh_ne_nil sep cs)
      · rw [hs] at hp
        rcases List.mem_cons.mp hp with h | h
        · subst h
          intro hmem
          rcases List.mem_cons.mp hmem with h' | h'
          · exact hc h'.symm
          · exact ih q (hs ▸ List.mem_cons_self q qs) h'
        · exact ih p (hs ▸ List.mem_cons_of_mem q h)

theorem splitCh_of_not_mem (sep : Char) (l : List Char) (h : sep ∉ l) :
    splitCh sep l = [l] := by
  induction l with
  | nil => rfl
  | cons c cs ih =>
    have hc : c ≠ sep := fun hc => h (hc ▸ List.mem_cons_self c cs)
    have hcs : sep ∉ cs := fun hm => h (List.mem_cons_of_mem c hm)
    simp only [splitCh, if_neg hc, ih hcs]

theorem splitCh_append_sep (sep : Char) (p rest : List Char) (hp : sep ∉ p) :
    splitCh sep (p ++ sep :: rest) = p :: splitCh sep rest := by
  induction p with
  | nil => simp [splitCh]
  | cons c p' ih =>
    have hc : c ≠ sep := fun hc => hp (hc ▸ List.mem_cons_self c p')
    have hp' : sep ∉ p' := fun hm => hp (List.mem_cons_of_mem c hm)
    simp only [List.cons_append, splitCh, if_neg hc, List.append_eq]
    rw [ih hp']

theorem splitCh_joinCh (sep : Char) :
    ∀ parts : List (List Char), parts ≠ [] → (∀ p ∈ parts, sep ∉ p) →
      splitCh sep (joinCh sep parts) = parts := by
  intro parts
  induction parts with
  | nil => intro h _; exact absurd rfl h
  | cons p rest ih =>
    intro _ hall
    cases rest with
    | nil =>
      simp only [joinCh]
      exact splitCh_of_not_mem sep p (hall p (List.mem_cons_self p []))
    | cons q ps =>
      simp only [joinCh]
      rw [splitCh_append_sep sep p _ (hall p (List.mem_cons_self p (q :: ps)))]
      rw [ih (by simp) (fun r hr => hall r (List.mem_cons_of_mem p hr))]

/-! ## Bridging `String` and character lists -/

theorem mk_data (s : String) : String.mk s.data = s := rfl

theorem jsSplit_map_data (sep : Char) (s : String) :
    (jsSplit s sep).map String.data = splitCh sep s.data := by
  rw [jsSplit, List.map_map]
  have hcomp : (String.data ∘ String.mk) = id := rfl
  rw [hcomp, List.map_id]

theorem splitCh_of_jsSplit_three (sep : Char) (s : String) (a b c : String)
    (h : jsSplit s sep = [a, b, c]) :
    splitCh sep s.data = [a.data, b.data, c.data] := by
  rw [← jsSplit_map_data sep s, h]
  rfl

/-! ## The scope normalizer -/

theorem normalizeScope_eq_spec (s : String) :
    normalizeScope s = specScopeNormalizer s := by
  rcases h : jsSplit s ':' with _ | ⟨a, _ | ⟨b, _ | ⟨c, _ | ⟨d, tl⟩⟩⟩⟩
  · simp [normalizeScope, specScopeNormalizer, h]
  · simp [normalizeScope, specScopeNormalizer, h]
  · simp [normalizeScope, specScopeNormalizer, h]
  · by_cases hb : jsIncludes b '/'
    · simp [normalizeScope, specScopeNormalizer, h, hb]
    · simp [normalizeScope, specScopeNormalizer, h, hb, List.set]
  · simp [normalizeScope, specScopeNormalizer, h]

theorem specScopeNormalizer_of_ne_three (s : String)
    (h : (jsSplit s ':').length ≠ 3) : specScopeNormalizer s = s := by
  rcases hl : jsSplit s ':' with _ | ⟨a, _ | ⟨b, _ | ⟨c, _ | ⟨d, tl⟩⟩⟩⟩ <;>
    simp_all [specScopeNormalizer]

theorem specScopeNormalizer_idem (s : String) :
    specScopeNormalizer (specScopeNormalizer s) = specScopeNormalizer s := by
  rcases h : jsSplit s ':' with _ | ⟨a, _ | ⟨b, _ | ⟨c, _ | ⟨d, tl⟩⟩⟩⟩
  · have hs : specScopeNormalizer s = s := by simp [specScopeNormalizer, h]
    rw [hs]; exact hs
  · have hs : specScopeNormalizer s = s := by simp [specScopeNormalizer, h]
    rw [hs]; exact hs
  · have hs : specScopeNormalizer s = s := by simp [specScopeNormalizer, h]
    rw [hs]; exact hs
  · by_cases hb : jsIncludes b '/'
    · have hs : specScopeNormalizer s = s := by simp [specScopeNormalizer, h, hb]
      rw [hs]; exact hs
    · have hsplit : splitCh ':' s.data = [a.data, b.data, c.data] :=
        splitCh_of_jsSplit_three ':' s a b c h
      have hmem : ∀ p ∈ splitCh ':' s.data, (':' : Char) ∉ p :=
        sep_not_mem_of_mem_splitCh ':' s.data
      rw [hsplit] at hmem
      have hmemall :
          ∀ p ∈ [a.data, ("library/" ++ b).data, c.data], (':' : Char) ∉ p := by
        intro p hp
        rcases List.mem_cons.mp hp with rfl | hp
        · exact hmem a.data (by simp)
        rcases List.mem_cons.mp hp with rfl | hp
        · rw [String.data_append]
          intro hcontra
          rcases List.mem_append.mp hcontra with hlib | hbb
          · exact absurd hlib (by decide)
          · exact hmem b.data (by simp) hbb
        rcases List.mem_cons.mp hp with rfl | hp
        · exact hmem c.data (by simp)
        · exact absurd hp (List.not_mem_nil p)
      have r_def : specScopeNormalizer s = jsJoin ':' [a, "library/" ++ b, c] := by
        simp [specScopeNormalizer, h, hb]
      have hdata : (jsJoin ':' [a, "library/" ++ b, c]).data
          = joinCh ':' [a.data, ("library/" ++ b).data, c.data] := rfl
      have hsplit2 : jsSplit (jsJoin ':' [a, "library/" ++ b, c]) ':'
          = [a, "library/" ++ b, c] := by
        rw [jsSplit, hdata, splitCh_joinCh ':' _ (by simp) hmemall]
        rfl
      have hinc : jsIncludes ("library/" ++ b) '/' = true := by
        have hmemlib : ('/' : Char) ∈ ("library/" ++ b).data := by
          rw [String.data_append]
          exact List.mem_append_left _ (by decide)
        simp only [jsIncludes, List.contains_eq_any_beq, List.any_eq_true]
        exact ⟨'/', hmemlib, by simp⟩
      rw [r_def]
      simp [specScopeNormalizer, hsplit2, hinc]
  · have hs : specScopeNormalizer s = s := by simp [specScopeNormalizer, h]
    rw [hs]; exact hs

/-! ## Router lemmas -/

theorem joined_head_slash (p : String) (h5 : (jsSplit p '/').length = 5)
    (hslash : p.data.head? = some '/') :
    (jsJoin '/' (spliceInsert 2 "library" (jsSplit p '/'))).data.head? = some '/' := by
  rcases hd : p.data with _ | ⟨c, t⟩
  · rw [hd] at hslash
    simp at hslash
  · rw [hd] at hslash
    simp at hslash
    subst hslash
    have hsp : jsSplit p '/' = "" :: (splitCh '/' t).map String.mk := by
      rw [jsSplit, hd]
      simp [splitCh]
    rw [hsp] at h5 ⊢
    rcases ht : splitCh '/' t with _ | ⟨q1, _ | ⟨q2, _ | ⟨q3, _ | ⟨q4, _ | ⟨q5, tl⟩⟩⟩⟩⟩ <;>
      rw [ht] at h5 <;> simp at h5
    simp [jsJoin, spliceInsert, joinCh]

theorem handleRequest_token (fetch : OutboundRequest → HttpResponse)
    (request : InboundRequest) (scope : String)
    (hpath : request.url.pathname = "/auth/token")
    (hscope : request.url.query.lookup "scope" = some scope) :
    handleRequest fetch request = .response (fetch (tokenRequest (normalizeScope scope))) := by
  have h1 : request.url.pathname ≠ "/" := by rw [hpath]; decide
  have h2 : request.url.pathname ≠ "/v2/" := by rw [hpath]; decide
  simp only [handleRequest, if_neg h1, if_neg h2, if_pos hpath, getToken, processScope, hscope]

/-! ## Claims -/

/-- Claim C1: every request whose URL path splits on `/` into exactly 5
elements (and whose path is none of `/`, `/v2/`, `/auth/token`) is answered
with a 301 redirect whose target has scheme `https`, host equal to the
request's own host, and path equal to the original path with the literal
segment `library` inserted at index 2 of the split array before rejoining
with `/`.  The path of any parsed URL begins with `/`. -/
theorem namespace_redirect_inserts_library
    (fetch : OutboundRequest → HttpResponse) (request : InboundRequest)
    (h5 : (jsSplit request.url.pathname '/').length = 5)
    (hroot : request.url.pathname ≠ "/")
    (hv2 : request.url.pathname ≠ "/v2/")
    (htok : request.url.pathname ≠ "/auth/token")
    (hslash : request.url.pathname.data.head? = some '/') :
    handleRequest fetch request =
      .response (redirectResponse
        ("https://" ++ request.url.host ++
          jsJoin '/' (spliceInsert 2 "library" (jsSplit request.url.pathname '/'))) 301) := by
  have hJ := joined_head_slash request.url.pathname h5 hslash
  simp only [handleRequest, if_neg hroot, if_neg hv2, if_neg htok, if_pos h5,
    urlWithPath, setPathname, if_pos hJ]

/-- Witness for C1: `GET /v2/alpine/manifests/latest` on host `example.com`
is answered with a 301 to `https://example.com/v2/library/alpine/manifests/latest`. -/
theorem namespace_redirect_inserts_library_witness :
    handleRequest constFetch manifestRequest =
      .response (redirectResponse "https://example.com/v2/library/alpine/manifests/latest" 301) :=
  (namespace_redirect_inserts_library constFetch manifestRequest
    (by decide) (by decide) (by decide) (by decide) (by decide)).trans (by decide)

/-- Claim C2: the scope normalizer agrees everywhere with the spec's rule —
split on `:`; on exactly 3 parts whose second part has no `/`, prepend
`library/` to the second part and rejoin; otherwise return the scope
unchanged — and in particular `repository:ubuntu:pull` normalizes to
`repository:library/ubuntu:pull`, while `repository:library/ubuntu:pull`
and `repository:someuser/repo:push` are unchanged. -/
theorem scope_normalizer_matches_spec :
    (∀ scope : String, normalizeScope scope = specScopeNormalizer scope) ∧
    normalizeScope "repository:ubuntu:pull" = "repository:library/ubuntu:pull" ∧
    normalizeScope "repository:library/ubuntu:pull" = "repository:library/ubuntu:pull" ∧
    normalizeScope "repository:someuser/repo:push" = "repository:someuser/repo:push" :=
  ⟨normalizeScope_eq_spec, by decide, by decide, by decide⟩

/-- Claim C3: the router selects exactly one of five handling modes, tested
in fixed priority order on the URL path — `/` gives the 301 to
`https://www.docker.com`, `/v2/` delegates to the challenge responder,
`/auth/token` to the token proxy, a 5-element split path to the namespace
redirect, and everything else to the generic proxy toward
`https://registry-1.docker.io`. -/
theorem router_selects_one_of_five_modes
    (fetch : OutboundRequest → HttpResponse) (request : InboundRequest) :
    (handleRequest fetch request =
      match handlingMode request with
      | .landingRedirect => .response (redirectResponse "https://www.docker.com" 301)
      | .challengeMode => .response (challenge fetch DOCKER_REGISTRY request.url.host)
      | .tokenMode => getToken fetch request.url
      | .namespaceRedirect =>
          .response (redirectResponse
            (urlWithPath request.url.host
              (jsJoin '/' (spliceInsert 2 "library" (jsSplit request.url.pathname '/')))) 301)
      | .genericProxy => .response (getData fetch DOCKER_REGISTRY request)) ∧
    DOCKER_REGISTRY = "https://registry-1.docker.io" := by
  refine ⟨?_, rfl⟩
  simp only [handleRequest, handlingMode]
  split_ifs <;> rfl

/-- Claim C4: every request to exactly `/v2/` is answered with the upstream
discovery endpoint's status, status text and body, and exactly one response
header — `WWW-Authenticate` with the fixed Bearer template instantiated at
the requesting host; all upstream headers are dropped. -/
theorem v2_challenge_response
    (fetch : OutboundRequest → HttpResponse) (request : InboundRequest)
    (h : request.url.pathname = "/v2/") :
    (handleRequest fetch request =
      .response
        { status := (fetch (challengeRequest DOCKER_REGISTRY)).status
          statusText := (fetch (challengeRequest DOCKER_REGISTRY)).statusText
          headers := [("WWW-Authenticate",
            "Bearer realm=\"https://" ++ request.url.host ++
              "/auth/token\",service=\"docker-proxy-worker\"")]
          body := (fetch (challengeRequest DOCKER_REGISTRY)).body }) ∧
    challengeRequest DOCKER_REGISTRY =
      { url := "https://registry-1.docker.io/v2/", query := [], method := "GET",
        headers := [], redirect := .follow } := by
  have h1 : request.url.pathname ≠ "/" := by rw [h]; decide
  constructor
  · simp only [handleRequest, if_neg h1, if_pos h]
    rfl
  · decide

/-- Witness for C4: `GET /v2/` at host `proxy.example`, with the upstream
discovery endpoint answering 401 with its own headers and body: the reply
keeps status, status text and body but carries only the challenge header. -/
theorem v2_challenge_response_witness :
    handleRequest upstreamProbeFetch v2Request =
      .response ⟨401, "Unauthorized",
        [("WWW-Authenticate",
          "Bearer realm=\"https://proxy.example/auth/token\",service=\"docker-proxy-worker\"")],
        "authrequired"⟩ :=
  ((v2_challenge_response upstreamProbeFetch v2Request (by decide)).1).trans (by decide)

/-- Claim C5: a request to `/auth/token` carrying a `scope` query parameter
produces exactly one outbound request — to `https://auth.docker.io/token`
with query `service=registry.docker.io` and `scope=<normalized scope>`, and
nothing else of the original query — and the token service's response is
returned unmodified. -/
theorem token_proxy_request
    (fetch : OutboundRequest → HttpResponse) (request : InboundRequest) (scope : String)
    (hpath : request.url.pathname = "/auth/token")
    (hscope : request.url.query.lookup "scope" = some scope) :
    (handleRequest fetch request =
      .response (fetch (tokenRequest (normalizeScope scope)))) ∧
    tokenRequest (normalizeScope scope) =
      { url := "https://auth.docker.io/token"
        query := [("service", "registry.docker.io"), ("scope", normalizeScope scope)]
        method := "GET", headers := [], redirect := .follow } :=
  ⟨handleRequest_token fetch request scope hpath hscope, rfl⟩

/-- Witness for C5: `GET /auth/token?scope=repository:alpine:pull&foo=bar`
reaches the token service only as
`https://auth.docker.io/token?service=registry.docker.io&scope=repository:library/alpine:pull`,
and that service's response comes back unmodified. -/
theorem token_proxy_request_witness :
    handleRequest tokenFetch tokenRequestSample =
      .response ⟨200, "OK", [("Content-Type", "application/json")], "tokenpayload"⟩ :=
  ((token_proxy_request tokenFetch tokenRequestSample "repository:alpine:pull"
    (by decide) (by decide)).1).trans (by decide)

/-- Claim C6: every request handled by the generic proxy goes out to
`https://registry-1.docker.io` concatenated with the inbound path only (the
inbound query string is dropped), keeps the inbound method and headers, uses
the manual redirect policy, and the upstream response is returned
unmodified. -/
theorem generic_proxy_forwarding
    (fetch : OutboundRequest → HttpResponse) (request : InboundRequest)
    (hroot : request.url.pathname ≠ "/")
    (hv2 : request.url.pathname ≠ "/v2/")
    (htok : request.url.pathname ≠ "/auth/token")
    (h5 : (jsSplit request.url.pathname '/').length ≠ 5) :
    (handleRequest fetch request = .response (fetch (proxyRequest DOCKER_REGISTRY request))) ∧
    proxyRequest DOCKER_REGISTRY request =
      { url := "https://registry-1.docker.io" ++ request.url.pathname
        query := []
        method := request.method
        headers := request.headers
        redirect := .manual } := by
  constructor
  · simp only [handleRequest, if_neg hroot, if_neg hv2, if_neg htok, if_neg h5, getData]
  · rfl

/-- Witness for C6: `HEAD /v2/library/alpine/blobs/sha256-abc?q=1` with an
authorization header is forwarded with method, headers and manual redirect
policy, and the upstream 307 comes back unfollowed. -/
theorem generic_proxy_forwarding_witness :
    handleRequest blobFetch blobRequest =
      .response ⟨307, "Temporary Redirect", [("Location", "https://blobs.example/data")], ""⟩ :=
  ((generic_proxy_forwarding blobFetch blobRequest
    (by decide) (by decide) (by decide) (by decide)).1).trans (by decide)

/-- Claim C7: the scope normalizer is idempotent — normalizing twice yields
the same string as normalizing once. -/
theorem scope_normalizer_idempotent (scope : String) :
    normalizeScope (normalizeScope scope) = normalizeScope scope := by
  simp only [normalizeScope_eq_spec]
  exact specScopeNormalizer_idem scope

/-- Claim C8: a request to `/auth/token` with no `scope` query parameter
fails with an uncaught error — the missing value is dereferenced with no
validation or fallback — instead of producing a token response. -/
theorem token_missing_scope_errors
    (fetch : OutboundRequest → HttpResponse) (request : InboundRequest)
    (hpath : request.url.pathname = "/auth/token")
    (hscope : request.url.query.lookup "scope" = none) :
    handleRequest fetch request = .error ∧ processScope request.url = none := by
  have h1 : request.url.pathname ≠ "/" := by rw [hpath]; decide
  have h2 : request.url.pathname ≠ "/v2/" := by rw [hpath]; decide
  constructor
  · simp only [handleRequest, if_neg h1, if_neg h2, if_pos hpath, getToken, processScope, hscope]
  · simp only [processScope, hscope]

/-- Witness for C8: `GET /auth/token?account=alice` (no scope) ends in the
error result. -/
theorem token_missing_scope_errors_witness :
    handleRequest constFetch noScopeTokenRequest = .error :=
  (token_missing_scope_errors constFetch noScopeTokenRequest (by decide) (by decide)).1

/-- Claim C9 (implicit): the outbound token request uses the default GET
method and carries no inbound headers; nothing of the inbound request
except the `scope` query parameter influences the outbound call, so two
token requests with the same scope are handled identically. -/
theorem token_outbound_ignores_inbound
    (fetch : OutboundRequest → HttpResponse) (r₁ r₂ : InboundRequest) (scope : String)
    (h₁ : r₁.url.pathname = "/auth/token") (h₂ : r₂.url.pathname = "/auth/token")
    (hs₁ : r₁.url.query.lookup "scope" = some scope)
    (hs₂ : r₂.url.query.lookup "scope" = some scope) :
    handleRequest fetch r₁ = handleRequest fetch r₂ ∧
    (tokenRequest (normalizeScope scope)).method = "GET" ∧
    (tokenRequest (normalizeScope scope)).headers = [] := by
  refine ⟨?_, rfl, rfl⟩
  rw [handleRequest_token fetch r₁ scope h₁ hs₁, handleRequest_token fetch r₂ scope h₂ hs₂]

/-- Witness for C9: a GET with no headers and a POST with extra headers, a
different host and the same scope get the same answer. -/
theorem token_outbound_ignores_inbound_witness :
    handleRequest tokenFetch tokenRequestSample =
      handleRequest tokenFetch otherTokenRequestSample :=
  (token_outbound_ignores_inbound tokenFetch tokenRequestSample otherTokenRequestSample
    "repository:alpine:pull" (by decide) (by decide) (by decide) (by decide)).1

/-- Claim C10 (implicit): the handling mode the router selects is a function
of the URL path alone — two requests with equal paths select the same mode,
whatever their method, headers, query or host. -/
theorem handling_mode_function_of_path (r₁ r₂ : InboundRequest)
    (h : r₁.url.pathname = r₂.url.pathname) :
    handlingMode r₁ = handlingMode r₂ := by
  simp only [handlingMode, h]

/-- Witness for C10: two requests sharing only a pathname select the same
mode. -/
theorem handling_mode_function_of_path_witness :
    handlingMode modeProbeA = handlingMode modeProbeB :=
  handling_mode_function_of_path modeProbeA modeProbeB (by decide)
